import Mathlib

/-!
Verification development for the PCI DSS requirements extractor repository.

The repository has three parts:
* a Next.js upload form (`pci-extractor-web/src/components/pdf-upload-form/index.tsx`)
  that posts a PDF to `/api/extract` and offers JSON/CSV downloads of the result;
* a demo PDF-to-image endpoint (`floating-notification/app/api/convert-pdf/route.ts`);
* a Python extraction core (`api/language_detector.py`, `api/extractors.py`,
  `testv5.py`) that is documented in the repository's READMEs but whose source
  files are not part of the checked-in tree; where a property concerns that
  core, the definitions below are modelled from the specification (sections
  4.1-4.4) and from the keyword lists documented in the README, and each such
  definition says so in its doc comment.

All machine text is modelled as Lean `String`; processing is done charwise on
`List Char` so that every definition is executable.
-/

/-! ## Character and string helpers (charwise models of JS/Python string ops) -/

/-- Whitespace test used by `trim` models (space, tab, CR, LF). -/
def isWSChar (c : Char) : Bool :=
  c = ' ' || c = '\t' || c = '\n' || c = '\r'

/-- Charwise trim: drop whitespace from both ends (models `str.trim()` /
Python `str.strip()` for ASCII whitespace). -/
def trimChars (cs : List Char) : List Char :=
  ((cs.dropWhile isWSChar).reverse.dropWhile isWSChar).reverse

/-- `String` version of `trimChars`. -/
def trimStr (s : String) : String :=
  String.mk (trimChars s.toList)

/-- Charwise lower-casing (models case-insensitive matching; `Char.toLower`
is ASCII-only, which matches the keyword lists used below). -/
def lowerChars (cs : List Char) : List Char :=
  cs.map Char.toLower

/-- Split a character list on a separator character; JS `str.split(sep)`
semantics: the empty input yields one empty field. -/
def splitOnCharList (sep : Char) : List Char → List (List Char)
  | [] => [[]]
  | c :: cs =>
    let r := splitOnCharList sep cs
    if c = sep then [] :: r
    else
      match r with
      | [] => [[c]]
      | x :: xs => (c :: x) :: xs

/-- Split a string into lines on the newline character (models
`text.split('\n')`). -/
def linesOf (s : String) : List String :=
  (splitOnCharList '\n' s.toList).map String.mk

/-- Count (possibly overlapping) occurrences of a pattern inside a character
list: one test at every position. -/
def countOccs (pat : List Char) : List Char → Nat
  | [] => 0
  | c :: cs => (if pat.isPrefixOf (c :: cs) then 1 else 0) + countOccs pat cs

/-! ## Requirement records (spec section 3, output schema section 6) -/

/-- A requirement record as produced by the extraction pipeline and consumed
by the web form: `{req_num, text, tests, guidance}` (spec section 3 and the
TS annotation `Array<{req_num: string, text: string, tests: string[],
guidance: string}>`). -/
structure Requirement where
  req_num : String
  text : String
  tests : List String
  guidance : String
deriving DecidableEq, Repr

/-! ## Upload-form model
(`src/pci-extractor-web/src/components/pdf-upload-form/index.tsx`,
identical logic in `src/unnamed/part_002`). -/

/-- A browser `File` as seen by `handleFiles`: name, MIME type, byte size. -/
structure FileDesc where
  name : String
  type : String
  size : Nat
deriving DecidableEq, Repr

/-- The `summary` object of a server response
(`{total, with_tests, with_guidance, total_tests}`). -/
structure Summary where
  total : Nat
  with_tests : Nat
  with_guidance : Nat
  total_tests : Nat
deriving DecidableEq, Repr

/-- The `/api/extract` response as consumed by `handleFiles`: HTTP `ok` flag,
optional `error` field of the JSON body, optional `requirements` list
(`none` models an absent field), and the `summary`. -/
structure ServerResponse where
  ok : Bool
  error : Option String
  requirements : Option (List Requirement)
  summary : Summary
deriving DecidableEq, Repr

/-- The `ExtractionResult` stored in component state on success. -/
structure ExtractionResult where
  filename : String
  requirements : List Requirement
  summary : Summary
deriving DecidableEq, Repr

/-- The component's `State` union
(`"idle" | "uploading" | "processing" | "success" | "error"`). -/
inductive FormState where
  | idle
  | uploading
  | processing
  | success
  | error
deriving DecidableEq, Repr

/-- Observable outcome of one `handleFiles` run, immediately after the
handler returns (before any reset timer fires): final state, error message,
stored result, and whether a network request was issued. -/
structure FormOutcome where
  state : FormState
  error : Option String
  result : Option ExtractionResult
  requestSent : Bool
deriving DecidableEq, Repr

/-- Model of `handleFiles` from
`pci-extractor-web/src/components/pdf-upload-form/index.tsx` lines 28-95.
The eventual server response is passed as a parameter (it is only consulted
on the code path that actually issues the fetch).  Strings in the TS source
are never `undefined` here, so `x || fallback` is the identity except on the
empty string; `errorData.error || '...'` becomes `Option.getD`. -/
def handleFiles (files : List FileDesc) (resp : ServerResponse) : FormOutcome :=
  match files with
  | [] => ⟨FormState.idle, none, none, false⟩
  | file :: _ =>
    if file.type ≠ "application/pdf" then
      ⟨FormState.error, some "Veuillez s\xe9lectionner un fichier PDF valide", none, false⟩
    else if file.size > 50 * 1024 * 1024 then
      ⟨FormState.error, some "Le fichier est trop volumineux (max 50MB)", none, false⟩
    else if resp.ok = false then
      ⟨FormState.error, some (resp.error.getD "Erreur lors de l\x27extraction"), none, true⟩
    else
      match resp.requirements with
      | some (r :: rs) =>
        ⟨FormState.success, none, some ⟨file.name, r :: rs, resp.summary⟩, true⟩
      | _ =>
        ⟨FormState.error, some "Aucune exigence PCI DSS trouv\xe9e dans le PDF", none, true⟩

/-! ## Download filename model (`src/unnamed/part_001`, `downloadJSON`
lines 143-163 and `downloadCSV` lines 186-189). -/

/-- `languageInfo?.code ? `_${languageInfo.code}` : ''` — JS truthiness:
an absent (`none`) or empty code yields the empty suffix. -/
def languageSuffix (code : Option String) : String :=
  match code with
  | some c => if c = "" then "" else "_" ++ c
  | none => ""

/-- `now.toISOString().slice(0, 19).replace(/[:.]/g, '-')`: first 19
characters of the ISO string with every colon and dot turned into a dash. -/
def isoTimestamp (iso : String) : String :=
  String.mk ((iso.toList.take 19).map (fun c => if c = ':' || c = '.' then '-' else c))

/-- Suggested JSON download filename (`downloadJSON`, part_001 lines 153-156):
`pci_requirements${languageSuffix}_${timestamp}.json`. -/
def downloadJSONFileName (code : Option String) (iso : String) : String :=
  "pci_requirements" ++ languageSuffix code ++ "_" ++ isoTimestamp iso ++ ".json"

/-- Suggested CSV download filename (`downloadCSV`, part_001 lines 186-189):
`pci_requirements${languageSuffix}_${timestamp}.csv`. -/
def downloadCSVFileName (code : Option String) (iso : String) : String :=
  "pci_requirements" ++ languageSuffix code ++ "_" ++ isoTimestamp iso ++ ".csv"

/-- String append is associative (via the underlying character lists). -/
theorem strAppend_assoc (a b c : String) : a ++ b ++ c = a ++ (b ++ c) := by
  apply String.ext
  simp [List.append_assoc]

/-! ## CSV model (`src/unnamed/part_001`, `downloadCSV` lines 165-196). -/

/-- Model of the TS field escape `(s || '').replace(/"/g, '""')`: every
double-quote character becomes two.  `s || ''` is the identity on strings.
The regex replacement of the single-character pattern is rendered charwise. -/
def escapeQuotes (s : String) : String :=
  String.mk ((s.toList.map (fun c => if c = '"' then ['"', '"'] else [c])).flatten)

/-- A quoted CSV field: `"${(s || '').replace(/"/g, '""')}"`. -/
def csvField (s : String) : String :=
  "\"" ++ escapeQuotes s ++ "\""

/-- One CSV row of `downloadCSV` (part_001 lines 171-176): the four quoted
fields joined with commas; `tests` is an array in this model, so
`Array.isArray(item.tests) ? item.tests.join('; ') : ...` takes the
`join('; ')` branch. -/
def csvRow (r : Requirement) : String :=
  String.intercalate ","
    [csvField r.req_num, csvField r.text,
     csvField (String.intercalate "; " r.tests), csvField r.guidance]

/-- The header line `headers.join(',')` with
`headers = ['reqid', 'pci_requirement_fr', 'tp', 'guidance']`. -/
def csvHeader : String :=
  String.intercalate "," ["reqid", "pci_requirement_fr", "tp", "guidance"]

/-- The list whose join makes up `csvContent`: header first, then one row per
requirement in order. -/
def csvLines (data : List Requirement) : List String :=
  csvHeader :: data.map csvRow

/-- `csvContent = [headers.join(','), ...rows].join('\n')`. -/
def csvContent (data : List Requirement) : String :=
  String.intercalate "\n" (csvLines data)

/-! ## Convert-pdf endpoint model
(`src/floating-notification/app/api/convert-pdf/route.ts`, `POST`). -/

/-- An uploaded file as read from the form data: name, MIME type, raw bytes. -/
structure UploadFile where
  name : String
  type : String
  content : List Nat
deriving DecidableEq, Repr

/-- The request's form data: `formData.get("pdf")`, `none` when absent. -/
structure ConvertRequest where
  pdf : Option UploadFile
deriving DecidableEq, Repr

/-- The JSON response of the convert-pdf endpoint: HTTP status, optional
`error`, and on success `filename`, `images` and `downloadUrl`. -/
structure ConvertResponse where
  status : Nat
  error : Option String
  filename : Option String
  images : Option (List String)
  downloadUrl : Option String
deriving DecidableEq, Repr

/-- The fixed placeholder list of route.ts lines 37-41 (`mockImages`). -/
def mockImages : List String :=
  ["/placeholder.svg?height=400&width=300&text=Page 1",
   "/placeholder.svg?height=400&width=300&text=Page 2",
   "/placeholder.svg?height=400&width=300&text=Page 3"]

/-- `file.name.replace(/[^a-zA-Z0-9.-]/g, "_")`: characters outside
ASCII letters, digits, dot and dash become underscores. -/
def sanitizeChar (c : Char) : Char :=
  if c.isAlpha || c.isDigit || c = '.' || c = '-' then c else '_'

/-- The stored upload filename `${timestamp}-${sanitized original name}`. -/
def uploadFileName (timestamp : Nat) (name : String) : String :=
  toString timestamp ++ "-" ++ String.mk (name.toList.map sanitizeChar)

/-- Model of `POST` in `app/api/convert-pdf/route.ts` lines 6-61.  Returns
the response together with the list of file writes performed (path, bytes);
`Date.now()` is the `timestamp` parameter.  The deferred cleanup `unlink` is
not part of the write list. -/
def convertPdfPOST (req : ConvertRequest) (timestamp : Nat) :
    ConvertResponse × List (String × List Nat) :=
  match req.pdf with
  | none => (⟨400, some "Aucun fichier fourni", none, none, none⟩, [])
  | some file =>
    if file.type ≠ "application/pdf" then
      (⟨400, some "Le fichier doit \xeatre un PDF", none, none, none⟩, [])
    else
      (⟨200, none, some file.name, some mockImages,
        some ("/api/download-images?id=" ++ toString timestamp)⟩,
       [(uploadFileName timestamp file.name, file.content)])

/-! ## Language detector
Modelled from the spec: `api/language_detector.py` (class
`PCILanguageDetector`) is not among the checked-in sources; the definitions
below follow spec section 4.1 and the keyword lists documented in
`src/unnamed/part_000` (section "Mots-cles de Detection"). -/

/-- French detection keywords, as listed in the README. -/
def frKeywords : List String :=
  ["exigences", "conseils", "examiner", "observer", "interroger",
   "vérifier", "inspecter", "applicabilité", "en place", "pas en place",
   "non applicable", "non testé", "notes d\x27applicabilité"]

/-- English detection keywords, as listed in the README. -/
def enKeywords : List String :=
  ["requirements", "guidance", "examine", "observe", "interview",
   "verify", "inspect", "applicability", "in place", "not in place",
   "not applicable", "not tested", "applicability notes"]

/-- Modelled from the spec (section 4.1): total case-insensitive occurrence
count of a language's keywords inside the text. -/
def hitsFor (keywords : List String) (text : String) : Nat :=
  let t := lowerChars text.toList
  (keywords.map (fun k => countOccs (lowerChars k.toList) t)).sum

/-- The detector's result record (`{code, name, name_en, confidence}`;
the extractor label is carried separately by the orchestrator). -/
structure LanguageDetectionResult where
  code : String
  name : String
  name_en : String
  confidence : ℚ
deriving DecidableEq, Repr

/-- Modelled from the spec (section 4.1, `detect`): count hits per language;
the higher raw count wins, ties go to French; confidence is winning hits
over total hits, and 0 with the French fallback when nothing matched. -/
def detect (text : String) : LanguageDetectionResult :=
  let fr := hitsFor frKeywords text
  let en := hitsFor enKeywords text
  let total := fr + en
  if total = 0 then
    ⟨"fr", "Français", "French", 0⟩
  else if en > fr then
    ⟨"en", "English", "English", (en : ℚ) / (total : ℚ)⟩
  else
    ⟨"fr", "Français", "French", (fr : ℚ) / (total : ℚ)⟩

/-! ## Requirement extractor
Modelled from the spec: `api/extractors.py` / `testv5.py`
(`PCIRequirementsExtractorFR` / `...EN`) are not among the checked-in
sources; the definitions below follow the shared algorithm of spec section
4.3 with the per-language segmentation grammar of section 4.2, whose marker
words come from the README keyword lists. -/

/-- A per-language segmentation grammar: the words that start a
test-procedure segment and a guidance segment (spec section 4.2). -/
structure Grammar where
  testMarkers : List String
  guidanceMarkers : List String
deriving DecidableEq, Repr

/-- French grammar: test verbs and the guidance marker from the README list. -/
def frGrammar : Grammar :=
  ⟨["examiner", "observer", "interroger", "vérifier", "inspecter"], ["conseils"]⟩

/-- English grammar: test verbs and the guidance marker from the README list. -/
def enGrammar : Grammar :=
  ⟨["examine", "observe", "interview", "verify", "inspect"], ["guidance"]⟩

/-- Does the trimmed, lower-cased line start with one of the marker words? -/
def lineMatches (markers : List String) (line : String) : Bool :=
  markers.any (fun m => (lowerChars m.toList).isPrefixOf (lowerChars (trimChars line.toList)))

/-- Modelled from the spec (section 4.2): "a line beginning with a dotted
numeric identifier followed by whitespace starts a new requirement".
Returns the identifier and the remainder of the line (leading spaces
stripped), or `none` when the line is not a requirement start. -/
def reqStartOf (line : String) : Option (String × String) :=
  match line.toList with
  | [] => none
  | c :: cs =>
    if c.isDigit then
      let tailId := cs.takeWhile (fun ch => ch.isDigit || ch = '.')
      let rest := cs.drop tailId.length
      if ('.' ∈ (c :: tailId)) &&
         (match rest with
          | [] => false
          | r :: _ => isWSChar r) then
        some (String.mk (c :: tailId), String.mk (rest.dropWhile (fun ch => ch = ' ')))
      else none
    else none

/-- The "current requirement" accumulator of spec section 4.3 step 2:
the fields gathered so far plus the two scanning modes (guidance mode, and
the segment-after-a-test-marker flag of step 3). -/
structure ReqAcc where
  req_num : String
  text : String
  tests : List String
  guidance : String
  inGuidance : Bool
  afterTest : Bool
deriving DecidableEq, Repr

/-- A fresh accumulator opened at a requirement-start segment: the captured
identifier and the remainder of the segment as the start of `text`. -/
def mkAcc (num rest : String) : ReqAcc :=
  ⟨num, rest, [], "", false, false⟩

/-- Join a further segment onto accumulated text: a single space between
segments, with a trailing hyphen collapsed (hyphenation line-break). -/
def joinSegment (t line : String) : String :=
  if t = "" then trimStr line
  else if t.toList.getLast? = some '-' then
    String.mk (t.toList.dropLast) ++ trimStr line
  else t ++ " " ++ trimStr line

/-- Close an accumulator into a `Requirement` record (tests possibly empty,
guidance possibly the empty string). -/
def closeAcc (a : ReqAcc) : Requirement :=
  ⟨a.req_num, a.text, a.tests, a.guidance⟩

/-- Emit the current accumulator, if any, as a completed requirement —
provided it has a non-empty `req_num` (spec section 4.3 steps 2 and 4). -/
def flushAcc (acc : Option ReqAcc) : List Requirement :=
  match acc with
  | none => []
  | some a => if a.req_num = "" then [] else [closeAcc a]

/-- One non-start segment consumed inside an open requirement (spec section
4.3 step 3): a test marker appends a trimmed non-empty entry to `tests` and
leaves guidance mode; a guidance marker enters guidance mode; otherwise the
segment goes to `guidance` in guidance mode, is dropped when it immediately
follows a test marker, and otherwise joins `text`. -/
def stepSegment (g : Grammar) (a : ReqAcc) (line : String) : ReqAcc :=
  if lineMatches g.testMarkers line then
    let entry := trimStr line
    { a with
      tests := if entry = "" then a.tests else a.tests ++ [entry],
      inGuidance := false, afterTest := true }
  else if lineMatches g.guidanceMarkers line then
    { a with inGuidance := true, afterTest := false }
  else if a.inGuidance then
    { a with guidance := joinSegment a.guidance line }
  else if a.afterTest then
    { a with afterTest := false }
  else
    { a with text := joinSegment a.text line }

/-- The sequential scan of spec section 4.3: segments before the first
requirement start are discarded; a requirement-start segment flushes the
open accumulator and opens a new one; end of input flushes the last one. -/
def extractLines (g : Grammar) : List String → Option ReqAcc → List Requirement
  | [], acc => flushAcc acc
  | l :: ls, acc =>
    match reqStartOf l with
    | some (num, rest) => flushAcc acc ++ extractLines g ls (some (mkAcc num rest))
    | none =>
      match acc with
      | none => extractLines g ls none
      | some a => extractLines g ls (some (stepSegment g a l))

/-- Modelled from the spec (section 4.3, `extract`): split the text into
lines and scan them with an initially closed accumulator. -/
def extract (g : Grammar) (text : String) : List Requirement :=
  extractLines g (linesOf text) none

/-! ## Helper lemmas about the extractor -/

/-- The identifier captured by a requirement-start match is never empty. -/
theorem reqStartOf_num_ne_empty {l num rest : String}
    (h : reqStartOf l = some (num, rest)) : num ≠ "" := by
  unfold reqStartOf at h
  split at h
  · exact absurd h (by simp)
  next c cs =>
    split at h
    · dsimp only at h
      split at h
      · rw [Option.some.injEq, Prod.mk.injEq] at h
        intro he
        rw [← h.1] at he
        exact absurd (congrArg String.data he) (by simp)
      · exact absurd h (by simp)
    · exact absurd h (by simp)

/-- Consuming a non-start segment never changes the captured identifier. -/
theorem stepSegment_req_num (g : Grammar) (a : ReqAcc) (l : String) :
    (stepSegment g a l).req_num = a.req_num := by
  unfold stepSegment
  split
  · rfl
  · split
    · rfl
    · split
      · rfl
      · split
        · rfl
        · rfl

/-- The identifier list contributed by the pending accumulator. -/
def accNums (acc : Option ReqAcc) : List String :=
  match acc with
  | none => []
  | some a => if a.req_num = "" then [] else [a.req_num]

/-- Flushing the accumulator emits exactly its pending identifiers. -/
theorem flushAcc_map_num (acc : Option ReqAcc) :
    (flushAcc acc).map Requirement.req_num = accNums acc := by
  cases acc with
  | none => rfl
  | some a =>
    simp only [flushAcc, accNums]
    split
    · rfl
    · simp [closeAcc]

/-- The identifiers of the requirement-start segments of a line list, in
document order (duplicates kept). -/
def markerNums (ls : List String) : List String :=
  ls.filterMap (fun l => (reqStartOf l).map Prod.fst)

/-- Scan invariant: the emitted identifier sequence is the pending
accumulator's identifier followed by the start-marker identifiers of the
remaining lines, in order. -/
theorem extractLines_map_num (g : Grammar) :
    ∀ (ls : List String) (acc : Option ReqAcc),
      (extractLines g ls acc).map Requirement.req_num = accNums acc ++ markerNums ls := by
  intro ls
  induction ls with
  | nil =>
    intro acc
    simp [extractLines, markerNums, flushAcc_map_num]
  | cons l ls ih =>
    intro acc
    cases hr : reqStartOf l with
    | some p =>
      obtain ⟨num, rest⟩ := p
      have hne : num ≠ "" := reqStartOf_num_ne_empty hr
      simp [extractLines, hr, ih, flushAcc_map_num, markerNums, accNums, mkAcc, hne]
    | none =>
      cases acc with
      | none =>
        simp [extractLines, hr, ih, markerNums, accNums]
      | some a =>
        simp [extractLines, hr, ih, markerNums, accNums, stepSegment_req_num]

/-! ## Operational view of one extraction run (for determinism) -/

/-- One extraction run as a relation: `Scan g ls acc out` holds when
sequentially consuming the segments `ls` from accumulator state `acc`
(spec section 4.3 steps 2-4) can produce the requirement list `out`. -/
inductive Scan (g : Grammar) : List String → Option ReqAcc → List Requirement → Prop where
  | done (acc : Option ReqAcc) : Scan g [] acc (flushAcc acc)
  | start (l : String) (ls : List String) (acc : Option ReqAcc)
      (num rest : String) (out : List Requirement)
      (h : reqStartOf l = some (num, rest))
      (hs : Scan g ls (some (mkAcc num rest)) out) :
      Scan g (l :: ls) acc (flushAcc acc ++ out)
  | skipFront (l : String) (ls : List String) (out : List Requirement)
      (h : reqStartOf l = none) (hs : Scan g ls none out) :
      Scan g (l :: ls) none out
  | inside (l : String) (ls : List String) (a : ReqAcc) (out : List Requirement)
      (h : reqStartOf l = none)
      (hs : Scan g ls (some (stepSegment g a l)) out) :
      Scan g (l :: ls) (some a) out

/-- The scan relation is a function of its input: any two results from the
same segment list and accumulator state coincide. -/
theorem scan_functional (g : Grammar) {ls : List String} {acc : Option ReqAcc}
    {out₁ out₂ : List Requirement}
    (h₁ : Scan g ls acc out₁) (h₂ : Scan g ls acc out₂) : out₁ = out₂ := by
  induction h₁ generalizing out₂ with
  | done acc =>
    cases h₂
    rfl
  | start l ls acc num rest out h hs ih =>
    cases h₂ with
    | start _ _ _ num₂ rest₂ out₂ h₂m hs₂ =>
      rw [h] at h₂m
      rw [Option.some.injEq, Prod.mk.injEq] at h₂m
      rw [← h₂m.1, ← h₂m.2] at hs₂
      rw [ih hs₂]
    | skipFront _ _ _ h₂m hs₂ =>
      rw [h] at h₂m
      exact absurd h₂m (by simp)
    | inside _ _ _ _ h₂m hs₂ =>
      rw [h] at h₂m
      exact absurd h₂m (by simp)
  | skipFront l ls out h hs ih =>
    cases h₂ with
    | start _ _ _ num₂ rest₂ out₂ h₂m hs₂ =>
      rw [h] at h₂m
      exact absurd h₂m (by simp)
    | skipFront _ _ _ h₂m hs₂ =>
      exact ih hs₂
  | inside l ls a out h hs ih =>
    cases h₂ with
    | start _ _ _ num₂ rest₂ out₂ h₂m hs₂ =>
      rw [h] at h₂m
      exact absurd h₂m (by simp)
    | inside _ _ _ _ h₂m hs₂ =>
      exact ih hs₂

/-- The functional extractor realizes the scan relation. -/
theorem extractLines_scan (g : Grammar) :
    ∀ (ls : List String) (acc : Option ReqAcc), Scan g ls acc (extractLines g ls acc) := by
  intro ls
  induction ls with
  | nil =>
    intro acc
    simpa [extractLines] using Scan.done (g := g) acc
  | cons l ls ih =>
    intro acc
    cases hr : reqStartOf l with
    | some p =>
      obtain ⟨num, rest⟩ := p
      have hrun := Scan.start (g := g) l ls acc num rest _ hr (ih (some (mkAcc num rest)))
      simpa [extractLines, hr] using hrun
    | none =>
      cases acc with
      | none =>
        have hrun := Scan.skipFront (g := g) l ls _ hr (ih none)
        simpa [extractLines, hr] using hrun
      | some a =>
        have hrun := Scan.inside (g := g) l ls a _ hr (ih (some (stepSegment g a l)))
        simpa [extractLines, hr] using hrun

/-- One full extraction run over a text buffer: split into lines and scan
from the closed accumulator state. -/
def ExtractRun (g : Grammar) (text : String) (out : List Requirement) : Prop :=
  Scan g (linesOf text) none out

/-- `extract` is a run of the scan relation. -/
theorem extract_is_run (g : Grammar) (text : String) : ExtractRun g text (extract g text) :=
  extractLines_scan g (linesOf text) none

/-! ## JSON field model of the output schema (spec section 6) -/

/-- A JSON value, with `jnull` available so that an absent/null field is
representable and provably never produced. -/
inductive JsonVal where
  | jnull
  | jstr (s : String)
  | jarr (elems : List JsonVal)
deriving Repr

/-- The JSON object fields of one requirement record in the output schema
`{"req_num": str, "text": str, "tests": [str,...], "guidance": str}`. -/
def requirementFields (r : Requirement) : List (String × JsonVal) :=
  [("req_num", JsonVal.jstr r.req_num),
   ("text", JsonVal.jstr r.text),
   ("tests", JsonVal.jarr (r.tests.map JsonVal.jstr)),
   ("guidance", JsonVal.jstr r.guidance)]

/-! ## Claim theorems -/

/-- C1: when the upload form's `handleFiles` receives an ok response whose
requirements list is empty or absent, it surfaces the distinct
"Aucune exigence PCI DSS trouvée dans le PDF" error condition: the state is
`error` with that message, no result is stored, and the handler returns
normally (it is a total function, so the pipeline does not crash). -/
theorem handleFiles_no_requirements_error
    (file : FileDesc) (rest : List FileDesc) (resp : ServerResponse)
    (htype : file.type = "application/pdf")
    (hsize : file.size ≤ 50 * 1024 * 1024)
    (hok : resp.ok = true)
    (hreq : resp.requirements = none ∨ resp.requirements = some []) :
    handleFiles (file :: rest) resp =
      ⟨FormState.error, some "Aucune exigence PCI DSS trouv\xe9e dans le PDF", none, true⟩ := by
  rcases hreq with h | h <;>
    simp [handleFiles, htype, hok, h, Nat.not_lt.mpr hsize]

/-- Witness for C1 at a concrete valid PDF upload whose ok response carries
an empty requirements list. -/
theorem handleFiles_no_requirements_error_witness :
    handleFiles [⟨"doc.pdf", "application/pdf", 1000⟩]
        ⟨true, none, some [], ⟨0, 0, 0, 0⟩⟩ =
      ⟨FormState.error, some "Aucune exigence PCI DSS trouv\xe9e dans le PDF", none, true⟩ :=
  handleFiles_no_requirements_error ⟨"doc.pdf", "application/pdf", 1000⟩ []
    ⟨true, none, some [], ⟨0, 0, 0, 0⟩⟩ rfl (by decide) rfl (Or.inr rfl)

/-- C2: the suggested download filenames are
`pci_requirements_<code>_<timestamp><ext>` when a language code is known and
`pci_requirements_<timestamp><ext>` (code segment omitted) when it is
absent, for both the JSON and the CSV download. -/
theorem download_filename_language_code (c iso : String) (hc : c ≠ "") :
    downloadJSONFileName (some c) iso =
        "pci_requirements_" ++ c ++ "_" ++ isoTimestamp iso ++ ".json" ∧
    downloadCSVFileName (some c) iso =
        "pci_requirements_" ++ c ++ "_" ++ isoTimestamp iso ++ ".csv" ∧
    downloadJSONFileName none iso = "pci_requirements_" ++ isoTimestamp iso ++ ".json" ∧
    downloadCSVFileName none iso = "pci_requirements_" ++ isoTimestamp iso ++ ".csv" := by
  refine ⟨?_, ?_, ?_, ?_⟩ <;>
  · apply String.ext
    simp [downloadJSONFileName, downloadCSVFileName, languageSuffix, hc,
      show ("pci_requirements_" : String).data = "pci_requirements".data ++ ['_'] from rfl,
      show ("_" : String).data = ['_'] from rfl]

/-- Witness for C2 at the concrete code "fr" and a concrete ISO timestamp. -/
theorem download_filename_language_code_witness :
    downloadJSONFileName (some "fr") "2024-01-15T10:30:45.123Z" =
        "pci_requirements_" ++ "fr" ++ "_" ++ isoTimestamp "2024-01-15T10:30:45.123Z" ++ ".json" ∧
    downloadCSVFileName (some "fr") "2024-01-15T10:30:45.123Z" =
        "pci_requirements_" ++ "fr" ++ "_" ++ isoTimestamp "2024-01-15T10:30:45.123Z" ++ ".csv" ∧
    downloadJSONFileName none "2024-01-15T10:30:45.123Z" =
        "pci_requirements_" ++ isoTimestamp "2024-01-15T10:30:45.123Z" ++ ".json" ∧
    downloadCSVFileName none "2024-01-15T10:30:45.123Z" =
        "pci_requirements_" ++ isoTimestamp "2024-01-15T10:30:45.123Z" ++ ".csv" :=
  download_filename_language_code "fr" "2024-01-15T10:30:45.123Z" (by decide)

/-- C3: every requirement emitted by the (spec-modelled) extraction pipeline
serializes with a `tests` field that is an array of strings and a `guidance`
field that is a string — both present and never the null JSON value. -/
theorem requirement_fields_present (g : Grammar) (t : String) (r : Requirement)
    (_hr : r ∈ extract g t) :
    (requirementFields r).lookup "tests" = some (JsonVal.jarr (r.tests.map JsonVal.jstr)) ∧
    (requirementFields r).lookup "tests" ≠ some JsonVal.jnull ∧
    (requirementFields r).lookup "guidance" = some (JsonVal.jstr r.guidance) ∧
    (requirementFields r).lookup "guidance" ≠ some JsonVal.jnull := by
  refine ⟨?_, ?_, ?_, ?_⟩ <;> simp [requirementFields, List.lookup]

/-- Witness for C3 at a concrete extracted requirement. -/
theorem requirement_fields_present_witness :
    (requirementFields ⟨"1.1", "Install", [], ""⟩).lookup "tests" =
        some (JsonVal.jarr ((⟨"1.1", "Install", [], ""⟩ : Requirement).tests.map JsonVal.jstr)) ∧
    (requirementFields ⟨"1.1", "Install", [], ""⟩).lookup "tests" ≠ some JsonVal.jnull ∧
    (requirementFields ⟨"1.1", "Install", [], ""⟩).lookup "guidance" =
        some (JsonVal.jstr (⟨"1.1", "Install", [], ""⟩ : Requirement).guidance) ∧
    (requirementFields ⟨"1.1", "Install", [], ""⟩).lookup "guidance" ≠ some JsonVal.jnull :=
  requirement_fields_present enGrammar "1.1 Install" ⟨"1.1", "Install", [], ""⟩ (by decide)

/-- C4: on text in which no keyword of either lexicon occurs, the
(spec-modelled) detector returns the French fallback with confidence 0. -/
theorem detect_no_keywords_fallback_fr (t : String)
    (hfr : hitsFor frKeywords t = 0) (hen : hitsFor enKeywords t = 0) :
    detect t = ⟨"fr", "Français", "French", 0⟩ := by
  simp [detect, hfr, hen]

/-- Witness for C4 at a concrete keyword-free text. -/
theorem detect_no_keywords_fallback_fr_witness :
    hitsFor frKeywords "zzz qqq" = 0 ∧ hitsFor enKeywords "zzz qqq" = 0 ∧
    detect "zzz qqq" = ⟨"fr", "Français", "French", 0⟩ :=
  ⟨by decide, by decide,
   detect_no_keywords_fallback_fr "zzz qqq" (by decide) (by decide)⟩

/-- C5: the identifier sequence of the extracted requirements equals, in
order and with duplicates kept, the identifiers of the requirement-start
segments of the input text (spec-modelled extractor). -/
theorem extract_order_matches_markers (g : Grammar) (t : String) :
    (extract g t).map Requirement.req_num = markerNums (linesOf t) := by
  simp [extract, extractLines_map_num, accNums]

/-- C6: one extraction run, viewed as the scan relation over the input's
segments, is deterministic: two runs on identical text yield identical
output sequences (and the model is a pure function of the text). -/
theorem extract_run_deterministic (g : Grammar) (t : String)
    (out₁ out₂ : List Requirement)
    (h₁ : ExtractRun g t out₁) (h₂ : ExtractRun g t out₂) : out₁ = out₂ :=
  scan_functional g h₁ h₂

/-- Witness for C6: two concrete runs on the same text produce the same
output. -/
theorem extract_run_deterministic_witness :
    ExtractRun enGrammar "1.1 Install" (extract enGrammar "1.1 Install") ∧
    extract enGrammar "1.1 Install" = extract enGrammar "1.1 Install" :=
  ⟨extract_is_run enGrammar "1.1 Install",
   extract_run_deterministic enGrammar "1.1 Install" _ _
     (extract_is_run enGrammar "1.1 Install") (extract_is_run enGrammar "1.1 Install")⟩

/-- C7: for every valid PDF POST (a `pdf` entry with MIME type
`application/pdf`), the convert-pdf endpoint answers 200 with exactly the
fixed three-element placeholder image list, independent of the file's
content — no real conversion happens. -/
theorem convertPdf_valid_mock_images (req : ConvertRequest) (file : UploadFile) (ts : Nat)
    (hpdf : req.pdf = some file) (htype : file.type = "application/pdf") :
    (convertPdfPOST req ts).fst.images = some mockImages ∧
    mockImages.length = 3 ∧
    (convertPdfPOST req ts).fst.status = 200 := by
  refine ⟨?_, by decide, ?_⟩ <;> simp [convertPdfPOST, hpdf, htype]

/-- Witness for C7 at a concrete valid upload. -/
theorem convertPdf_valid_mock_images_witness :
    (convertPdfPOST ⟨some ⟨"a.pdf", "application/pdf", [1, 2, 3]⟩⟩ 42).fst.images =
        some mockImages ∧
    mockImages.length = 3 ∧
    (convertPdfPOST ⟨some ⟨"a.pdf", "application/pdf", [1, 2, 3]⟩⟩ 42).fst.status = 200 :=
  convertPdf_valid_mock_images ⟨some ⟨"a.pdf", "application/pdf", [1, 2, 3]⟩⟩
    ⟨"a.pdf", "application/pdf", [1, 2, 3]⟩ 42 rfl rfl

/-- C8: when the first file is not a PDF or exceeds 50 MiB, `handleFiles`
ends in the error state, stores no result, and issues no network request. -/
theorem handleFiles_invalid_file_no_request
    (file : FileDesc) (rest : List FileDesc) (resp : ServerResponse)
    (h : file.type ≠ "application/pdf" ∨ file.size > 50 * 1024 * 1024) :
    (handleFiles (file :: rest) resp).state = FormState.error ∧
    (handleFiles (file :: rest) resp).result = none ∧
    (handleFiles (file :: rest) resp).requestSent = false := by
  rcases h with h | h
  · simp [handleFiles, h]
  · by_cases ht : file.type = "application/pdf"
    · simp [handleFiles, ht, h]
    · simp [handleFiles, ht]

/-- Witness for C8 at a concrete non-PDF file. -/
theorem handleFiles_invalid_file_no_request_witness :
    (handleFiles [⟨"a.txt", "text/plain", 10⟩] ⟨true, none, none, ⟨0, 0, 0, 0⟩⟩).state =
        FormState.error ∧
    (handleFiles [⟨"a.txt", "text/plain", 10⟩] ⟨true, none, none, ⟨0, 0, 0, 0⟩⟩).result = none ∧
    (handleFiles [⟨"a.txt", "text/plain", 10⟩] ⟨true, none, none, ⟨0, 0, 0, 0⟩⟩).requestSent =
        false :=
  handleFiles_invalid_file_no_request ⟨"a.txt", "text/plain", 10⟩ []
    ⟨true, none, none, ⟨0, 0, 0, 0⟩⟩ (Or.inl (by decide))

/-- C9: the CSV produced by `downloadCSV` is the newline-join of a header
line `reqid,pci_requirement_fr,tp,guidance` followed by exactly one row per
requirement in sequence order; each row joins its four fields with commas,
every field wrapped in double quotes with embedded quotes doubled, and a
requirement's tests joined into one field with "; ". -/
theorem csvContent_header_rows (data : List Requirement) :
    csvContent data = String.intercalate "\n" (csvLines data) ∧
    (csvLines data).length = data.length + 1 ∧
    (csvLines data).head? = some "reqid,pci_requirement_fr,tp,guidance" ∧
    (∀ i : Nat, (csvLines data)[i + 1]? = (data[i]?).map csvRow) ∧
    (∀ r : Requirement, csvRow r =
      csvField r.req_num ++ "," ++ csvField r.text ++ ","
        ++ csvField (String.intercalate "; " r.tests) ++ "," ++ csvField r.guidance) ∧
    (∀ s : String, csvField s = "\"" ++ escapeQuotes s ++ "\"") ∧
    escapeQuotes "say \"hi\"" = "say \"\"hi\"\"" := by
  refine ⟨rfl, by simp [csvLines], rfl, ?_, fun r => rfl, fun s => rfl, by decide⟩
  intro i
  simp [csvLines]

/-- C10: a POST without a `pdf` form entry, or with a non-PDF MIME type, is
answered with status 400 and an error body, and no file is written to the
uploads directory. -/
theorem convertPdf_invalid_400_no_write (req : ConvertRequest) (ts : Nat)
    (h : req.pdf = none ∨ ∃ f, req.pdf = some f ∧ f.type ≠ "application/pdf") :
    (convertPdfPOST req ts).fst.status = 400 ∧
    (convertPdfPOST req ts).fst.error.isSome = true ∧
    (convertPdfPOST req ts).snd = [] := by
  rcases h with h | ⟨f, hf, ht⟩
  · simp [convertPdfPOST, h]
  · simp [convertPdfPOST, hf, ht]

/-- Witness for C10 at a concrete request lacking the `pdf` entry. -/
theorem convertPdf_invalid_400_no_write_witness :
    (convertPdfPOST ⟨none⟩ 7).fst.status = 400 ∧
    (convertPdfPOST ⟨none⟩ 7).fst.error.isSome = true ∧
    (convertPdfPOST ⟨none⟩ 7).snd = [] :=
  convertPdf_invalid_400_no_write ⟨none⟩ 7 (Or.inl rfl)
